import Mathlib

/-!
Shallow embedding of the boot-task core of the sensor-swarm firmware:
the persistent backup-register bank, the typed boot-task accessor, the
boot-task dispatcher, the DFU bootloader handoff sequence, and the
peripheral-ownership model of the Raspberry Pi Pico device manager.

Sources embedded:
  - src/hw/types.rs          (BootTask, BackupRegister, From<u32>)
  - src/hw/blackpill_f401/backup_registers.rs (BlackPillBackupRegisters)
  - src/backup_domain.rs     (BackupDomain / BootTaskAccessor)
  - src/dfu_reboot.rs        (enter_dfu_mode / jump_to_dfu_bootloader)
  - src/hw/pipico/device.rs  (PiPicoDevice create_led / create_rtc /
                              get_backup_registers)
-/

/-- Enum BootTask from src/hw/types.rs lines 17-24. The source enum has
exactly the three variants None = 0, UpdateFirmware = 1, RunSelfTest = 2
(there is no DFUReboot variant in the file under src/). -/
inductive BootTask where
  | none
  | updateFirmware
  | runSelfTest
deriving DecidableEq, Repr

/-- Discriminant of the repr(u32) enum: the value of `task as u32` in the
source (None = 0, UpdateFirmware = 1, RunSelfTest = 2). -/
def BootTask.toU32 : BootTask → Nat
  | BootTask.none => 0
  | BootTask.updateFirmware => 1
  | BootTask.runSelfTest => 2

/-- Decode in impl From of u32 for BootTask, src/hw/types.rs lines 27-35:
match value { 1 => UpdateFirmware, 2 => RunSelfTest, _ => None }. -/
def BootTask.fromU32 (value : Nat) : BootTask :=
  match value with
  | 1 => BootTask.updateFirmware
  | 2 => BootTask.runSelfTest
  | _ => BootTask.none

/-- BackupRegister::BootTask as usize, src/hw/types.rs line 9. -/
def BackupRegister.bootTask : Nat := 0

/-- BackupRegister::BootCounter as usize, src/hw/types.rs line 11. -/
def BackupRegister.bootCounter : Nat := 1

/-- State of the STM32F401 RTC backup-register block behind
BlackPillBackupRegisters (src/hw/blackpill_f401/backup_registers.rs).
The underlying embassy RTC read, rtc.read_backup_register(index), returns
an Option: slot i holds rtc i, which may be absent. -/
structure BlackPillBackupRegisters where
  rtc : Nat → Option Nat

/-- register_count from src/hw/blackpill_f401/backup_registers.rs lines
73-75: the STM32F401 has 20 backup registers. -/
def BlackPillBackupRegisters.register_count : Nat := 20

/-- read_register from src/hw/blackpill_f401/backup_registers.rs lines
50-53: assert!(index < register_count) then
rtc.read_backup_register(index).unwrap_or(0). The Option result models
the assertion: Option.none is the panic on an out-of-range index. -/
def BlackPillBackupRegisters.read_register
    (b : BlackPillBackupRegisters) (index : Nat) : Option Nat :=
  if index < BlackPillBackupRegisters.register_count then
    some ((b.rtc index).getD 0)
  else
    Option.none

/-- write_register from src/hw/blackpill_f401/backup_registers.rs lines
63-66: assert!(index < register_count) then
rtc.write_backup_register(index, value). Option.none models the panic on
an out-of-range index; on success the slot now holds the value. -/
def BlackPillBackupRegisters.write_register
    (b : BlackPillBackupRegisters) (index value : Nat) :
    Option BlackPillBackupRegisters :=
  if index < BlackPillBackupRegisters.register_count then
    some ⟨fun j => if j = index then some value else b.rtc j⟩
  else
    Option.none

/-- BootTaskAccessor::write from src/backup_domain.rs lines 77-81:
write_register(BackupRegister::BootTask as usize, task as u32), on the
BlackPill register bank that backs the accessor in the firmware. -/
def BootTaskAccessor.write (b : BlackPillBackupRegisters) (task : BootTask) :
    Option BlackPillBackupRegisters :=
  b.write_register BackupRegister.bootTask task.toU32

/-- BootTaskAccessor::read_and_clear from src/backup_domain.rs lines
62-70: read slot BootTask, immediately write BootTask::None as u32 back
to it, and return the originally read raw value decoded via From<u32>. -/
def BootTaskAccessor.read_and_clear (b : BlackPillBackupRegisters) :
    Option (BootTask × BlackPillBackupRegisters) := do
  let raw ← b.read_register BackupRegister.bootTask
  let b2 ← b.write_register BackupRegister.bootTask BootTask.none.toU32
  pure (BootTask.fromU32 raw, b2)

/-- Claim C2 evaluation point: the decode in src/hw/types.rs maps the raw
value 3 to BootTask::None — there is no DFUReboot variant in the enum
under src/ — while the repository's own test test_boot_task_from_u32
(src/lib.rs line 111) asserts BootTask::from(3) == BootTask::DFUReboot.
The first three conjuncts confirm the 0, 1, 2 rows of the claimed map;
the last evaluates the code at the failing input 3. -/
theorem bootTask_decode_map_and_failing_three :
    BootTask.fromU32 0 = BootTask.none ∧
    BootTask.fromU32 1 = BootTask.updateFirmware ∧
    BootTask.fromU32 2 = BootTask.runSelfTest ∧
    BootTask.fromU32 3 = BootTask.none := by
  decide

/-- Claim C3: decoding is total and fail-safe — every u32 value outside
the defined discriminants 0, 1, 2 decodes to BootTask::None, never to an
error and never to an action-triggering task. -/
theorem bootTask_decode_total_failsafe (v : Nat) (hv : v < 2 ^ 32)
    (hout : v ∉ ([0, 1, 2] : List Nat)) :
    BootTask.fromU32 v = BootTask.none := by
  match v, hout with
  | 0, h => exact absurd (by simp) h
  | 1, h => exact absurd (by simp) h
  | 2, h => exact absurd (by simp) h
  | (n + 3), _ => rfl

/-- Witness for C3 at the concrete out-of-range raw value 999. -/
theorem bootTask_decode_total_failsafe_witness :
    BootTask.fromU32 999 = BootTask.none :=
  bootTask_decode_total_failsafe 999 (by decide) (by decide)

/-- Claim C1: for every BootTask variant T and every starting
register-bank state, write(T) followed by read_and_clear() returns T, and
a second read_and_clear() immediately afterwards returns BootTask::None
(none of the three operations hits the bounds assertion). -/
theorem bootTask_write_read_and_clear_roundtrip
    (T : BootTask) (b : BlackPillBackupRegisters) :
    ∃ b1 b2 b3,
      BootTaskAccessor.write b T = some b1 ∧
      BootTaskAccessor.read_and_clear b1 = some (T, b2) ∧
      BootTaskAccessor.read_and_clear b2 = some (BootTask.none, b3) := by
  cases T <;>
    exact ⟨_, _, _, rfl, rfl, rfl⟩

/-- Claim C7: both BlackPill register-bank operations bound-check the
index against register_count(): an index at or above register_count()
fails fast by assertion (modelled as Option.none) rather than silently
clamping or ignoring, and an in-range index passes the bound check so
that neither operation panics on it. -/
theorem blackpill_register_bounds (b : BlackPillBackupRegisters)
    (i v : Nat) :
    (BlackPillBackupRegisters.register_count ≤ i →
      b.read_register i = Option.none ∧
      b.write_register i v = Option.none) ∧
    (i < BlackPillBackupRegisters.register_count →
      (b.read_register i).isSome ∧ (b.write_register i v).isSome) := by
  constructor
  · intro h
    have hi : ¬ i < BlackPillBackupRegisters.register_count :=
      Nat.not_lt.mpr h
    constructor
    · simp [BlackPillBackupRegisters.read_register, hi]
    · simp [BlackPillBackupRegisters.write_register, hi]
  · intro h
    constructor
    · simp [BlackPillBackupRegisters.read_register, h]
    · simp [BlackPillBackupRegisters.write_register, h]

/-- A concrete BlackPill bank whose underlying RTC backup registers hold
no value at any index (a never-initialized backup domain). -/
def bankAllAbsent : BlackPillBackupRegisters :=
  ⟨fun _ => Option.none⟩

/-- Witness for C7: at index 20 = register_count() both operations hit
the assertion, and at the in-range index 5 both pass the bound check. -/
theorem blackpill_register_bounds_witness :
    (bankAllAbsent.read_register 20 = Option.none ∧
      bankAllAbsent.write_register 20 7 = Option.none) ∧
    ((bankAllAbsent.read_register 5).isSome ∧
      (bankAllAbsent.write_register 5 7).isSome) :=
  ⟨(blackpill_register_bounds bankAllAbsent 20 7).1 (by decide),
    (blackpill_register_bounds bankAllAbsent 5 7).2 (by decide)⟩

/-- Claim C10: for every in-range index, the BlackPill read never fails
on an absent underlying value — when the RTC backup-register read yields
no value, read_register returns 0 via unwrap_or(0), and 0 decodes to
BootTask::None. -/
theorem blackpill_read_absent_defaults_zero
    (b : BlackPillBackupRegisters) (i : Nat)
    (hi : i < BlackPillBackupRegisters.register_count)
    (habsent : b.rtc i = Option.none) :
    b.read_register i = some 0 ∧ BootTask.fromU32 0 = BootTask.none := by
  constructor
  · simp [BlackPillBackupRegisters.read_register, hi, habsent]
  · rfl

/-- Witness for C10 at index 0 of the all-absent bank. -/
theorem blackpill_read_absent_defaults_zero_witness :
    bankAllAbsent.read_register 0 = some 0 ∧
    BootTask.fromU32 0 = BootTask.none :=
  blackpill_read_absent_defaults_zero bankAllAbsent 0 (by decide) rfl

/-- Claim C9: the boot-task accessor's write(task) and read_and_clear()
modify only slot 0 of the register bank — every slot with index at least
1 (the boot-counter slot and all reserved slots) holds the same value
after either operation as it did before. -/
theorem bootTask_ops_touch_only_slot_zero
    (b bw bc : BlackPillBackupRegisters) (T t : BootTask) (j : Nat)
    (hj : 1 ≤ j)
    (hw : BootTaskAccessor.write b T = some bw)
    (hc : BootTaskAccessor.read_and_clear b = some (t, bc)) :
    bw.rtc j = b.rtc j ∧ bc.rtc j = b.rtc j := by
  have hj0 : j ≠ 0 := by omega
  have hwEq : BootTaskAccessor.write b T =
      some ⟨fun k => if k = 0 then some T.toU32 else b.rtc k⟩ := rfl
  have hcEq : BootTaskAccessor.read_and_clear b =
      some (BootTask.fromU32 ((b.rtc 0).getD 0),
        ⟨fun k => if k = 0 then some 0 else b.rtc k⟩) := rfl
  rw [hwEq] at hw
  rw [hcEq] at hc
  have hbw := Option.some.inj hw
  have hbc := congrArg Prod.snd (Option.some.inj hc)
  constructor
  · rw [← hbw]
    simp [hj0]
  · have hbc2 :
        ({ rtc := fun k => if k = 0 then some 0 else b.rtc k } :
          BlackPillBackupRegisters) = bc := hbc
    rw [← hbc2]
    simp [hj0]

/-- Result bank of writing UpdateFirmware to slot 0 of the all-absent
bank. -/
def bankAfterWrite : BlackPillBackupRegisters :=
  ⟨fun j => if j = 0 then some 1 else Option.none⟩

/-- Result bank of read_and_clear on the all-absent bank: slot 0 now
holds 0. -/
def bankAfterClear : BlackPillBackupRegisters :=
  ⟨fun j => if j = 0 then some 0 else Option.none⟩

/-- Witness for C9 at slot 5 of the all-absent bank, for a write of
UpdateFirmware and a read_and_clear (which returns None on this bank). -/
theorem bootTask_ops_touch_only_slot_zero_witness :
    bankAfterWrite.rtc 5 = bankAllAbsent.rtc 5 ∧
    bankAfterClear.rtc 5 = bankAllAbsent.rtc 5 :=
  bootTask_ops_touch_only_slot_zero bankAllAbsent bankAfterWrite
    bankAfterClear BootTask.updateFirmware BootTask.none 5 (by decide)
    rfl rfl

/-- DFU_BOOTLOADER_ADDRESS from src/dfu_reboot.rs line 9: the fixed ROM
base of the STM32 system DFU bootloader. -/
def DFU_BOOTLOADER_ADDRESS : Nat := 0x1FFF0000

/-- Observable hardware effects of the DFU handoff sequence, one event
per operation performed by src/dfu_reboot.rs. The deinitRtc and
deinitClocks events mark the calls to deinitialize_rtc() and
deinitialize_clocks() (whose bodies are best-effort, log-only stubs in
the source). -/
inductive DfuEvent where
  | disableInterrupts
  | deinitRtc
  | deinitClocks
  | clearPendingInterrupts
  | readVector (sp entry : Nat)
  | setMsp (sp : Nat)
  | transferControl (entry : Nat)
deriving DecidableEq, Repr

/-- jump_to_dfu_bootloader from src/dfu_reboot.rs lines 124-149, as the
ordered list of effects it performs on a machine whose ROM holds the u32
value rom(a) at address a: disable interrupts one final time, load the
bootloader stack pointer from the ROM base and the entry point from
base + 4, overwrite the main stack pointer with the loaded value, and
transfer control to the loaded entry point. The function's source return
type is the never type: the trace ends at the control transfer and there
is no returned value. -/
def jump_to_dfu_bootloader (rom : Nat → Nat) : List DfuEvent :=
  [DfuEvent.disableInterrupts,
    DfuEvent.readVector (rom DFU_BOOTLOADER_ADDRESS)
      (rom (DFU_BOOTLOADER_ADDRESS + 4)),
    DfuEvent.setMsp (rom DFU_BOOTLOADER_ADDRESS),
    DfuEvent.transferControl (rom (DFU_BOOTLOADER_ADDRESS + 4))]

/-- enter_dfu_mode from src/dfu_reboot.rs lines 35-53 (the same
five-call sequence as the trait-based version in
src/boot_task/dfu_reboot.rs lines 35-53): disable_interrupts();
deinitialize_rtc(); deinitialize_clocks(); clear_pending_interrupts();
jump_to_dfu_bootloader(). Straight-line code with no branch; the final
call never returns. -/
def enter_dfu_mode (rom : Nat → Nat) : List DfuEvent :=
  [DfuEvent.disableInterrupts, DfuEvent.deinitRtc, DfuEvent.deinitClocks,
    DfuEvent.clearPendingInterrupts] ++ jump_to_dfu_bootloader rom

/-- Exit mode of the handoff: some entry means the sequence ended by
transferring control to the given entry address and never returns to the
caller; Option.none would mean the sequence fell through and returned. -/
def enter_dfu_mode_outcome (rom : Nat → Nat) : Option Nat :=
  match (enter_dfu_mode rom).getLast? with
  | some (DfuEvent.transferControl entry) => some entry
  | _ => Option.none

/-- Claim C4: for every ROM content, enter_dfu_mode performs the claimed
steps in the claimed order with nothing skipped or reordered — the
claimed sequence (disable interrupts, de-init RTC, de-init clocks, clear
pending interrupts, read SP from the ROM base and entry from base + 4,
overwrite the stack pointer, transfer control) is an ordered
subsequence of the effect trace; every effect in the trace is one of the
claimed steps (the code only repeats the interrupt disable once more
inside the jump routine); the control transfer to the entry address is
the final effect; and the sequence ends in a control transfer rather
than a return. -/
theorem enter_dfu_mode_ordered_terminal (rom : Nat → Nat) :
    ([DfuEvent.disableInterrupts, DfuEvent.deinitRtc,
      DfuEvent.deinitClocks, DfuEvent.clearPendingInterrupts,
      DfuEvent.readVector (rom DFU_BOOTLOADER_ADDRESS)
        (rom (DFU_BOOTLOADER_ADDRESS + 4)),
      DfuEvent.setMsp (rom DFU_BOOTLOADER_ADDRESS),
      DfuEvent.transferControl (rom (DFU_BOOTLOADER_ADDRESS + 4))].Sublist
      (enter_dfu_mode rom)) ∧
    (∀ e ∈ enter_dfu_mode rom,
      e ∈ [DfuEvent.disableInterrupts, DfuEvent.deinitRtc,
        DfuEvent.deinitClocks, DfuEvent.clearPendingInterrupts,
        DfuEvent.readVector (rom DFU_BOOTLOADER_ADDRESS)
          (rom (DFU_BOOTLOADER_ADDRESS + 4)),
        DfuEvent.setMsp (rom DFU_BOOTLOADER_ADDRESS),
        DfuEvent.transferControl (rom (DFU_BOOTLOADER_ADDRESS + 4))]) ∧
    (enter_dfu_mode rom).getLast? =
      some (DfuEvent.transferControl (rom (DFU_BOOTLOADER_ADDRESS + 4))) ∧
    enter_dfu_mode_outcome rom =
      some (rom (DFU_BOOTLOADER_ADDRESS + 4)) := by
  refine ⟨?_, ?_, rfl, rfl⟩
  · simp only [enter_dfu_mode, jump_to_dfu_bootloader, List.cons_append,
      List.nil_append]
    exact .cons₂ _ (.cons₂ _ (.cons₂ _ (.cons₂ _ (.cons _
      (.cons₂ _ (.cons₂ _ (.cons₂ _ (List.Sublist.refl []))))))))
  · intro e he
    simp only [enter_dfu_mode, jump_to_dfu_bootloader, List.cons_append,
      List.nil_append, List.mem_cons, List.not_mem_nil, or_false] at he
    simp only [List.mem_cons, List.not_mem_nil, or_false]
    tauto

/-- Modelled from the spec: the repository's current two-argument
execute_boot_task with a DFUReboot arm is missing from src/ — only its
tests (src/lib.rs lines 133-168) and its caller (src/main.rs line 91)
are present, and the BootTask enum under src/ also lacks the
DFUReboot = 3 variant those tests assert. Spec section 3 defines the
tagged variants None = 0, UpdateFirmware = 1, RunSelfTest = 2,
DFUReboot = 3. -/
inductive BootTaskSpec where
  | none
  | updateFirmware
  | runSelfTest
  | dfuReboot
deriving DecidableEq, Repr

/-- Result of one dispatcher run: returned means the dispatcher only
logged and control came back to the caller; enteredDfu carries the
effect trace of the bootloader handoff it delegated to, which never
returns. -/
inductive DispatchOutcome where
  | returned
  | enteredDfu (events : List DfuEvent)
deriving DecidableEq, Repr

/-- Modelled from the spec: the dispatcher routing of spec section 4.3 —
None is a no-op, UpdateFirmware and RunSelfTest are log-only hook points
that must return, and DFUReboot delegates to the bootloader handoff
(embedded above from src/dfu_reboot.rs), which does not return. -/
def execute_boot_task (boot_task : BootTaskSpec) (rom : Nat → Nat) :
    DispatchOutcome :=
  match boot_task with
  | BootTaskSpec.none => DispatchOutcome.returned
  | BootTaskSpec.updateFirmware => DispatchOutcome.returned
  | BootTaskSpec.runSelfTest => DispatchOutcome.returned
  | BootTaskSpec.dfuReboot =>
      DispatchOutcome.enteredDfu (enter_dfu_mode rom)

/-- Claim C8: for every ROM content, the dispatcher given None,
UpdateFirmware or RunSelfTest performs only logging and returns to its
caller, while given DFUReboot it delegates to the bootloader handoff,
whose trace ends in a control transfer and never returns. -/
theorem execute_boot_task_routing (rom : Nat → Nat) :
    execute_boot_task BootTaskSpec.none rom = DispatchOutcome.returned ∧
    execute_boot_task BootTaskSpec.updateFirmware rom =
      DispatchOutcome.returned ∧
    execute_boot_task BootTaskSpec.runSelfTest rom =
      DispatchOutcome.returned ∧
    execute_boot_task BootTaskSpec.dfuReboot rom =
      DispatchOutcome.enteredDfu (enter_dfu_mode rom) ∧
    enter_dfu_mode_outcome rom =
      some (rom (DFU_BOOTLOADER_ADDRESS + 4)) :=
  ⟨rfl, rfl, rfl, rfl, rfl⟩

/-- Typed error returned when PIN_25 was already moved out,
src/hw/pipico/device.rs line 99. -/
def errPin25Consumed : String :=
  "PIN_25 peripheral already used or not available"

/-- Typed error returned when the RTC peripheral was already moved out,
src/hw/pipico/device.rs line 132. -/
def errRtcConsumed : String :=
  "RTC peripheral already used or not available"

/-- PiPicoLed from src/hw/pipico/led.rs: holds the PIN_25 output, created
low (off) by Output::new(pin25, Level::Low). -/
structure PiPicoLed where
  output : Bool
deriving DecidableEq, Repr

/-- PiPicoLed::new from src/hw/pipico/led.rs lines 23-32: consumes the
PIN_25 peripheral handle (modelled by the opaque Unit token) and always
returns Ok with the output initialized low. -/
def PiPicoLed.new (_pin25 : Unit) : Except String PiPicoLed :=
  Except.ok { output := false }

/-- PiPicoBackupRegisters from src/hw/pipico/backup_registers.rs: eight
RAM-simulated registers plus the consumed RTC peripheral handle
(modelled by the opaque Unit token). -/
structure PiPicoBackupRegisters where
  registers : List Nat
  rtc : Unit
deriving DecidableEq, Repr

/-- PiPicoBackupRegisters::new from src/hw/pipico/backup_registers.rs
lines 30-40: always returns Ok with all eight registers zeroed. -/
def PiPicoBackupRegisters.new (rtc : Unit) :
    Except String PiPicoBackupRegisters :=
  Except.ok { registers := List.replicate 8 0, rtc := rtc }

/-- PiPicoDevice from src/hw/pipico/device.rs lines 12-20: each
peripheral handle is held in an Option so a claim operation can move it
out exactly once; handles are modelled by opaque Unit tokens. -/
structure PiPicoDevice where
  pin25 : Option Unit
  usb : Option Unit
  pin0 : Option Unit
  pin1 : Option Unit
  rtc : Option Unit
  backup_registers : Option PiPicoBackupRegisters
deriving DecidableEq, Repr

/-- PiPicoDevice::new_internal from src/hw/pipico/device.rs lines 25-34:
every peripheral record starts Available (Some) and the stored
backup-register wrapper starts absent (None). -/
def PiPicoDevice.new_internal : PiPicoDevice :=
  { pin25 := some (), usb := some (), pin0 := some (), pin1 := some (),
    rtc := some (), backup_registers := Option.none }

/-- PiPicoDevice::create_led from src/hw/pipico/device.rs lines 95-104:
self.pin25.take().ok_or(error)? then PiPicoLed::new(pin25). The take()
empties the record even before the constructor runs; the error path
leaves the manager state unchanged. The state is returned alongside the
result to model the mutation of self. -/
def PiPicoDevice.create_led (d : PiPicoDevice) :
    Except String PiPicoLed × PiPicoDevice :=
  match d.pin25 with
  | Option.none => (Except.error errPin25Consumed, d)
  | some pin25 =>
      match PiPicoLed.new pin25 with
      | Except.ok led => (Except.ok led, { d with pin25 := Option.none })
      | Except.error e =>
          (Except.error e, { d with pin25 := Option.none })

/-- PiPicoDevice::create_rtc from src/hw/pipico/device.rs lines 128-142:
self.rtc.take().ok_or(error)? then PiPicoBackupRegisters::new(*rtc). The
wrapper is returned to the caller; nothing in the function stores it in
self.backup_registers (the source comment says the caller is responsible
for storing it). -/
def PiPicoDevice.create_rtc (d : PiPicoDevice) :
    Except String PiPicoBackupRegisters × PiPicoDevice :=
  match d.rtc with
  | Option.none => (Except.error errRtcConsumed, d)
  | some rtc =>
      match PiPicoBackupRegisters.new rtc with
      | Except.ok regs => (Except.ok regs, { d with rtc := Option.none })
      | Except.error e =>
          (Except.error e, { d with rtc := Option.none })

/-- PiPicoDevice::get_backup_registers from src/hw/pipico/device.rs lines
145-147: self.backup_registers.as_mut() — a non-consuming read of the
stored wrapper field. -/
def PiPicoDevice.get_backup_registers (d : PiPicoDevice) :
    Option PiPicoBackupRegisters :=
  d.backup_registers

/-- Claim C5: on a fresh manager the first create_led and the first
create_rtc succeed and move the underlying handle out (the record
becomes empty); on any manager whose record is already consumed the same
claim operation returns the typed already-consumed error and returns the
manager state completely unchanged, never handing out a second handle. -/
theorem pipico_single_use_claims :
    ((∃ led d1, PiPicoDevice.new_internal.create_led =
        (Except.ok led, d1) ∧ d1.pin25 = Option.none) ∧
      ∀ d : PiPicoDevice, d.pin25 = Option.none →
        d.create_led = (Except.error errPin25Consumed, d)) ∧
    ((∃ regs d1, PiPicoDevice.new_internal.create_rtc =
        (Except.ok regs, d1) ∧ d1.rtc = Option.none) ∧
      ∀ d : PiPicoDevice, d.rtc = Option.none →
        d.create_rtc = (Except.error errRtcConsumed, d)) := by
  refine ⟨⟨⟨_, _, rfl, rfl⟩, ?_⟩, ⟨_, _, rfl, rfl⟩, ?_⟩
  · intro d hd
    simp [PiPicoDevice.create_led, hd]
  · intro d hd
    simp [PiPicoDevice.create_rtc, hd]

/-- The fresh PiPico manager after its LED record has been consumed. -/
def devLedConsumed : PiPicoDevice :=
  { PiPicoDevice.new_internal with pin25 := Option.none }

/-- The fresh PiPico manager after its RTC record has been consumed. -/
def devRtcConsumed : PiPicoDevice :=
  { PiPicoDevice.new_internal with rtc := Option.none }

/-- Witness for C5: a second create_led on the consumed-LED state and a
second create_rtc on the consumed-RTC state each return the typed error
and the unchanged state. -/
theorem pipico_single_use_claims_witness :
    devLedConsumed.create_led =
      (Except.error errPin25Consumed, devLedConsumed) ∧
    devRtcConsumed.create_rtc =
      (Except.error errRtcConsumed, devRtcConsumed) :=
  ⟨pipico_single_use_claims.1.2 devLedConsumed rfl,
    pipico_single_use_claims.2.2 devRtcConsumed rfl⟩

/-- Counterexample to claim C6 at the concrete fresh manager: create_rtc
succeeds (the claim has happened), yet get_backup_registers on the
resulting manager state returns nothing — not the wrapper the claim says
it returns. -/
theorem pipico_get_backup_registers_counterexample :
    (PiPicoDevice.new_internal.create_rtc).1 =
      Except.ok { registers := List.replicate 8 0, rtc := () } ∧
    ¬ ∃ regs, (PiPicoDevice.new_internal.create_rtc).2.get_backup_registers
        = some regs := by
  constructor
  · rfl
  · rintro ⟨regs, h⟩
    exact Option.noConfusion h

/-- Claim C6 as amended: get_backup_registers() is a non-consuming read
of the manager's stored wrapper field; create_rtc() hands the wrapper to
its caller without storing it and never touches that field, so
get_backup_registers() returns nothing both when create_rtc() never
happened and after it has succeeded (on the fresh manager the field is
empty and stays empty). -/
theorem pipico_get_backup_registers_amended (d : PiPicoDevice) :
    d.get_backup_registers = d.backup_registers ∧
    (d.create_rtc).2.backup_registers = d.backup_registers ∧
    PiPicoDevice.new_internal.get_backup_registers = Option.none ∧
    (PiPicoDevice.new_internal.create_rtc).2.get_backup_registers =
      Option.none := by
  refine ⟨rfl, ?_, rfl, rfl⟩
  cases hd : d.rtc <;>
    simp [PiPicoDevice.create_rtc, PiPicoBackupRegisters.new, hd]

/-- An all-zero ROM image, used to instantiate the handoff theorem. -/
def romZero : Nat → Nat := fun _ => 0

/-- Witness for C4 at the all-zero ROM: instantiates the trace theorem
and discharges its membership hypothesis at the concrete deinitRtc
event. -/
theorem enter_dfu_mode_ordered_terminal_witness :
    DfuEvent.deinitRtc ∈
      [DfuEvent.disableInterrupts, DfuEvent.deinitRtc,
        DfuEvent.deinitClocks, DfuEvent.clearPendingInterrupts,
        DfuEvent.readVector (romZero DFU_BOOTLOADER_ADDRESS)
          (romZero (DFU_BOOTLOADER_ADDRESS + 4)),
        DfuEvent.setMsp (romZero DFU_BOOTLOADER_ADDRESS),
        DfuEvent.transferControl (romZero (DFU_BOOTLOADER_ADDRESS + 4))] :=
  (enter_dfu_mode_ordered_terminal romZero).2.1 DfuEvent.deinitRtc
    (by decide)
